import Mathlib

/-!
Shallow embedding of the reservation conflict/availability subsystem of the
cafe table-reservation backend (`app/services/availability_service.py`,
`app/repositories/booking.py`, `app/models/reservation_unit.py`).

Modelling choices:
* UUIDs are modelled as `Nat`; calendar dates as `Nat` (days since an epoch),
  with `date.today()` passed explicitly as a `today : Nat` parameter.
* Python `int` is modelled as `Int` (`guest_number`, `seat_number`).
* A database state is a `DB`: lists of rows per SQLAlchemy model.  Row ids
  are primary keys, so well-formed states have pairwise-distinct ids.
* Fallible repository methods return `Except BookingError _`; a raised
  `ValueError` becomes `Except.error` and the transaction rollback means the
  caller's state is unchanged (the pre-state is simply kept).
* The schema-level unique constraint `uq_reservation_atom` on
  (table_id, slot_id, booking_date) is enforced by the database at
  insert/commit time; this is modelled by `insertAllowed`: a transaction that
  inserts reservation-unit rows commits only if no inserted row shares its
  atom key with a surviving row or with another inserted row, otherwise the
  whole transaction fails (`BookingError.uniqueViolation`, the IntegrityError
  of the database driver).
-/

namespace BookingCafe

/-- Booking status enum (`app/utils/enums.py`, `BookingStatus`). -/
inductive BookingStatus where
  | CONFIRMED
  | CANCELED
  | DONE
deriving DecidableEq, Repr

/-- Row of the `cafe` table (fields used by the reservation core). -/
structure Cafe where
  id : Nat
  is_active : Bool
deriving DecidableEq, Repr

/-- Row of the `table` table (`app/models/table.py`). -/
structure Table where
  id : Nat
  cafe_id : Nat
  seat_number : Int
  is_active : Bool
deriving DecidableEq, Repr

/-- Row of the `slot` table (`app/models/slot.py`; times are irrelevant to
the reservation core and omitted). -/
structure Slot where
  id : Nat
  cafe_id : Nat
  is_active : Bool
deriving DecidableEq, Repr

/-- Row of the `booking` table (`app/models/booking.py`). -/
structure Booking where
  id : Nat
  user_id : Nat
  cafe_id : Nat
  booking_date : Nat
  guest_number : Int
  status : BookingStatus
  note : Option String
  is_active : Bool
deriving DecidableEq, Repr

/-- Row of the `reservationunit` table (`app/models/reservation_unit.py`). -/
structure ReservationUnit where
  booking_id : Nat
  cafe_id : Nat
  table_id : Nat
  slot_id : Nat
  booking_date : Nat
deriving DecidableEq, Repr

/-- A committed database state: one list of rows per model. -/
structure DB where
  cafes : List Cafe
  tables : List Table
  slots : List Slot
  bookings : List Booking
  units : List ReservationUnit
deriving DecidableEq, Repr

/-- Payload of `BookingCreate` (`app/schemas/booking.py`). -/
structure BookingCreate where
  guest_number : Int
  note : Option String
  status : BookingStatus
  booking_date : Nat
  cafe_id : Nat
  tables_id : List Nat
  slots_id : List Nat
deriving DecidableEq, Repr

/-- Payload of `BookingUpdate` (`app/schemas/booking.py`); `none` in an outer
`Option` means the field was not supplied (pydantic `exclude_unset`). -/
structure BookingUpdate where
  cafe_id : Option Nat := none
  tables_id : Option (List Nat) := none
  slots_id : Option (List Nat) := none
  guest_number : Option Int := none
  note : Option (Option String) := none
  status : Option BookingStatus := none
  booking_date : Option Nat := none
  is_active : Option Bool := none
deriving DecidableEq, Repr

/-- The `ValueError`s raised by the booking repository, plus the database
IntegrityError raised when an insert violates `uq_reservation_atom`. -/
inductive BookingError where
  | cafeNotFound
  | pastDate
  | noTables
  | noSlots
  | tablesUnavailable
  | slotsUnavailable
  | insufficientSeats (required available : Int)
  | occupied
  | pastBooking
  | doneBooking
  | uniqueViolation
deriving DecidableEq, Repr

/-- Source `AvailabilityService.validate_booking_date`: true iff the date is not in
the past (`booking_date >= date.today()`). -/
def validate_booking_date (booking_date today : Nat) : Bool :=
  decide (booking_date ≥ today)

/-- Source `AvailabilityService.validate_tables_capacity`: loads the tables whose id
is in `tables_ids` (no cafe or activity filter in the source query), returns
false on an empty result, otherwise compares the seat sum with
`guest_number`. -/
def validate_tables_capacity (db : DB) (tables_ids : List Nat)
    (guest_number : Int) : Bool :=
  if (db.tables.filter (fun t => decide (t.id ∈ tables_ids))).isEmpty then
    false
  else
    decide (((db.tables.filter (fun t =>
      decide (t.id ∈ tables_ids))).map (fun t => t.seat_number)).sum
        ≥ guest_number)

/-- One row of the conflict query of
`AvailabilityService.check_tables_availability`: the unit matches the
requested (table, slot, date) and joins to a booking that is active, not
CANCELED, and distinct from `exclude_booking_id` when that is supplied. -/
def unitBlocks (db : DB) (exclude_booking_id : Option Nat)
    (booking_date t s : Nat) (u : ReservationUnit) : Bool :=
  decide (u.table_id = t) && decide (u.slot_id = s) &&
  decide (u.booking_date = booking_date) &&
  db.bookings.any (fun b =>
    decide (b.id = u.booking_id) &&
    !decide (b.status = BookingStatus.CANCELED) &&
    b.is_active &&
    (match exclude_booking_id with
     | none => true
     | some e => !decide (b.id = e)))

/-- Source `AvailabilityService.check_tables_availability`: for every (table, slot)
pair of the cross product, search for a blocking reservation unit; false as
soon as one pair conflicts, true if none does.  The source never uses the
`cafe_id` argument in the query. -/
def check_tables_availability (db : DB) (cafe_id : Nat)
    (tables_ids slots_ids : List Nat) (booking_date : Nat)
    (exclude_booking_id : Option Nat) : Bool :=
  tables_ids.all (fun t =>
    slots_ids.all (fun s =>
      !db.units.any (unitBlocks db exclude_booking_id booking_date t s)))

/-- Source `BookingRepository._validate_relations`: both id lists non-empty; the
distinct requested table ids must all resolve to active tables of the cafe,
and likewise for slots (the source compares the cardinality of the resolved
id set with `len(set(ids))`). -/
def validate_relations (db : DB) (cafe_id : Nat)
    (tables_ids slots_ids : List Nat) : Except BookingError Unit :=
  if tables_ids.isEmpty then
    .error .noTables
  else if slots_ids.isEmpty then
    .error .noSlots
  else if ((db.tables.filter (fun t =>
      decide (t.id ∈ tables_ids) &&
      (decide (t.cafe_id = cafe_id) && t.is_active))).map
        (fun t => t.id)).dedup.length ≠ tables_ids.dedup.length then
    .error .tablesUnavailable
  else if ((db.slots.filter (fun s =>
      decide (s.id ∈ slots_ids) &&
      (decide (s.cafe_id = cafe_id) && s.is_active))).map
        (fun s => s.id)).dedup.length ≠ slots_ids.dedup.length then
    .error .slotsUnavailable
  else
    .ok ()

/-- Conflict key of `uq_reservation_atom`: (table_id, slot_id, booking_date). -/
def atomKey (u : ReservationUnit) : Nat × Nat × Nat :=
  (u.table_id, u.slot_id, u.booking_date)

/-- Database-side admission check for inserting `newUnits` into a state whose
surviving reservation-unit rows are `existing`: `uq_reservation_atom` rejects
the transaction unless the inserted rows have pairwise-distinct atom keys and
none of them repeats the atom key of a surviving row. -/
def insertAllowed (existing newUnits : List ReservationUnit) : Bool :=
  decide ((newUnits.map atomKey).dedup.length = (newUnits.map atomKey).length)
  && newUnits.all (fun u =>
      !existing.any (fun v => decide (atomKey v = atomKey u)))

/-- Cross-product materialization loop shared by creation and update:
`for table in tables: for slot in slots: ReservationUnit(...)`. -/
def crossUnits (booking_id cafe_id booking_date : Nat)
    (tids sids : List Nat) : List ReservationUnit :=
  tids.flatMap (fun tid =>
    sids.map (fun sid =>
      { booking_id := booking_id, cafe_id := cafe_id, table_id := tid,
        slot_id := sid, booking_date := booking_date }))

/-- Booking row built from the creation payload
(`Booking(**create_data)` with the caller's user id; `is_active` takes the
server default true, `id` the flushed primary key `new_id`). -/
def newBooking (obj_in : BookingCreate) (user_id new_id : Nat) : Booking :=
  { id := new_id, user_id := user_id, cafe_id := obj_in.cafe_id,
    booking_date := obj_in.booking_date, guest_number := obj_in.guest_number,
    status := obj_in.status, note := obj_in.note, is_active := true }

/-- Reservation units materialized by creation: the loop runs over the
table and slot ROWS selected by id (`select(Table).where(Table.id.in_(...))`,
with no cafe or activity filter), in store order. -/
def createdUnits (db : DB) (obj_in : BookingCreate) (new_id : Nat) :
    List ReservationUnit :=
  crossUnits new_id obj_in.cafe_id obj_in.booking_date
    ((db.tables.filter (fun t => decide (t.id ∈ obj_in.tables_id))).map
      (fun t => t.id))
    ((db.slots.filter (fun s => decide (s.id ∈ obj_in.slots_id))).map
      (fun s => s.id))

/-- Source `BookingRepository.create_with_validation`.  `new_id` stands for the
fresh primary key the flush assigns to the booking row.  Validation order is
the source's: cafe lookup, date check, relation check, capacity check,
availability check; then the booking row and the cross product of
reservation units are committed (the commit failing with an IntegrityError
when `uq_reservation_atom` rejects an inserted unit). -/
def create_with_validation (db : DB) (obj_in : BookingCreate)
    (user_id today new_id : Nat) : Except BookingError (DB × Booking) :=
  match db.cafes.find? (fun c => decide (c.id = obj_in.cafe_id)) with
  | none => .error .cafeNotFound
  | some _ =>
    if !validate_booking_date obj_in.booking_date today then
      .error .pastDate
    else
      match validate_relations db obj_in.cafe_id obj_in.tables_id
          obj_in.slots_id with
      | .error e => .error e
      | .ok _ =>
        if !validate_tables_capacity db obj_in.tables_id
            obj_in.guest_number then
          .error (.insufficientSeats obj_in.guest_number
            (((db.tables.filter (fun t =>
              decide (t.id ∈ obj_in.tables_id))).map
                (fun t => t.seat_number)).sum))
        else if !check_tables_availability db obj_in.cafe_id obj_in.tables_id
            obj_in.slots_id obj_in.booking_date none then
          .error .occupied
        else if !insertAllowed db.units (createdUnits db obj_in new_id) then
          .error .uniqueViolation
        else
          .ok ({ db with
                  bookings := db.bookings ++ [newBooking obj_in user_id
                    new_id],
                  units := db.units ++ createdUnits db obj_in new_id },
            newBooking obj_in user_id new_id)

/-- Scalar part of the update: the `setattr` loop over
`model_dump(exclude_unset=True, exclude={tables_id, slots_id})`. -/
def applyScalar (b : Booking) (p : BookingUpdate) : Booking :=
  { b with
    cafe_id := p.cafe_id.getD b.cafe_id,
    guest_number := p.guest_number.getD b.guest_number,
    note := p.note.getD b.note,
    status := p.status.getD b.status,
    booking_date := p.booking_date.getD b.booking_date,
    is_active := p.is_active.getD b.is_active }

/-- Ids of the booking's currently associated tables, through the
`reservationunit` secondary join (`Booking.tables`); the ORM collection holds
each joined table row once. -/
def bookingTableIds (db : DB) (booking_id : Nat) : List Nat :=
  (((db.units.filter (fun u => decide (u.booking_id = booking_id))).map
    (fun u => u.table_id)).filter
      (fun tid => db.tables.any (fun t => decide (t.id = tid)))).dedup

/-- Ids of the booking's currently associated slots (`Booking.slots`). -/
def bookingSlotIds (db : DB) (booking_id : Nat) : List Nat :=
  (((db.units.filter (fun u => decide (u.booking_id = booking_id))).map
    (fun u => u.slot_id)).filter
      (fun sid => db.slots.any (fun s => decide (s.id = sid)))).dedup

/-- Source `target_tables_ids = obj_in.tables_id or [t.id for t in db_obj.tables]`:
Python `or` falls back both when the field is unset and when it is an empty
list; the relationship collection was loaded before the unit delete, so the
fallback reads the pre-update units. -/
def targetTablesIds (db : DB) (db_obj : Booking)
    (obj_in : BookingUpdate) : List Nat :=
  match obj_in.tables_id with
  | some l => if l.isEmpty then bookingTableIds db db_obj.id else l
  | none => bookingTableIds db db_obj.id

/-- Source `target_slots_ids = obj_in.slots_id or [s.id for s in db_obj.slots]`. -/
def targetSlotsIds (db : DB) (db_obj : Booking)
    (obj_in : BookingUpdate) : List Nat :=
  match obj_in.slots_id with
  | some l => if l.isEmpty then bookingSlotIds db db_obj.id else l
  | none => bookingSlotIds db db_obj.id

/-- Source `BookingRepository.update_with_validation`.  Guards: frozen past
bookings, terminal DONE status, past target date.  Scalar fields are applied;
when `tables_id` or `slots_id` was supplied (`is not None`, so also for an
empty list) all of the booking's units are deleted, the target relation set
is re-validated, and the cross product is re-inserted — subject to the same
database uniqueness admission as creation.  No availability pre-check runs on
this path. -/
def update_with_validation (db : DB) (db_obj : Booking)
    (obj_in : BookingUpdate) (today : Nat) :
    Except BookingError (DB × Booking) :=
  if db_obj.booking_date < today then
    .error .pastBooking
  else if db_obj.status = BookingStatus.DONE then
    .error .doneBooking
  else if (match obj_in.booking_date with
           | some d => !validate_booking_date d today
           | none => false) then
    .error .pastDate
  else if obj_in.tables_id.isSome || obj_in.slots_id.isSome then
    match validate_relations db
        (obj_in.cafe_id.getD (applyScalar db_obj obj_in).cafe_id)
        (targetTablesIds db db_obj obj_in)
        (targetSlotsIds db db_obj obj_in) with
    | .error e => .error e
    | .ok _ =>
      if !insertAllowed
          (db.units.filter (fun u => !decide (u.booking_id = db_obj.id)))
          (crossUnits db_obj.id
            (obj_in.cafe_id.getD (applyScalar db_obj obj_in).cafe_id)
            (obj_in.booking_date.getD (applyScalar db_obj obj_in).booking_date)
            (targetTablesIds db db_obj obj_in)
            (targetSlotsIds db db_obj obj_in)) then
        .error .uniqueViolation
      else
        .ok ({ db with
                bookings := db.bookings.map (fun b =>
                  if b.id = db_obj.id then applyScalar db_obj obj_in else b),
                units := db.units.filter (fun u =>
                    !decide (u.booking_id = db_obj.id))
                  ++ crossUnits db_obj.id
                    (obj_in.cafe_id.getD (applyScalar db_obj obj_in).cafe_id)
                    (obj_in.booking_date.getD
                      (applyScalar db_obj obj_in).booking_date)
                    (targetTablesIds db db_obj obj_in)
                    (targetSlotsIds db db_obj obj_in) },
          applyScalar db_obj obj_in)
  else
    .ok ({ db with
            bookings := db.bookings.map (fun b =>
              if b.id = db_obj.id then applyScalar db_obj obj_in else b) },
      applyScalar db_obj obj_in)

/-- Schema constraint `uq_reservation_atom`: no two committed reservation-unit
rows share the same (table_id, slot_id, booking_date). -/
def uqOK (units : List ReservationUnit) : Prop :=
  units.Pairwise (fun u v => atomKey u ≠ atomKey v)

/-- Property P1 of the spec: no two reservation-unit rows with the same atom
key belong to two distinct bookings that are both active and not CANCELED. -/
def noDoubleBooking (db : DB) : Prop :=
  db.units.Pairwise (fun u v => atomKey u = atomKey v →
    ∀ b1 ∈ db.bookings, ∀ b2 ∈ db.bookings,
      b1.id = u.booking_id → b2.id = v.booking_id →
      b1.is_active = true → b2.is_active = true →
      b1.status ≠ BookingStatus.CANCELED →
      b2.status ≠ BookingStatus.CANCELED →
      b1.id = b2.id)

/-- Declarative reading of one conflicting (table, slot) pair: some
reservation unit holds exactly this (table, slot, date) for a booking that is
active, not CANCELED, and not the excluded one. -/
def pairConflicts (db : DB) (exclude_booking_id : Option Nat)
    (booking_date t s : Nat) : Prop :=
  ∃ u ∈ db.units, u.table_id = t ∧ u.slot_id = s ∧
    u.booking_date = booking_date ∧
    ∃ b ∈ db.bookings, b.id = u.booking_id ∧ b.is_active = true ∧
      b.status ≠ BookingStatus.CANCELED ∧
      ∀ e, exclude_booking_id = some e → b.id ≠ e

/-- States reachable from `db0` through committed
`create_with_validation` / `update_with_validation` calls.  For creation the
flushed primary key is fresh; for update the target booking is a stored row. -/
inductive Reach : DB → DB → Prop where
  | refl (db : DB) : Reach db db
  | create (db0 db db2 : DB) (obj_in : BookingCreate)
      (user_id today new_id : Nat) (b : Booking)
      (h : Reach db0 db)
      (hfresh : ∀ b' ∈ db.bookings, b'.id ≠ new_id)
      (hc : create_with_validation db obj_in user_id today new_id
        = .ok (db2, b)) : Reach db0 db2
  | update (db0 db db2 : DB) (db_obj : Booking) (obj_in : BookingUpdate)
      (today : Nat) (b2 : Booking)
      (h : Reach db0 db)
      (hb : db_obj ∈ db.bookings)
      (hu : update_with_validation db db_obj obj_in today
        = .ok (db2, b2)) : Reach db0 db2

/-- Concrete booking row used by the test states: id 5, CONFIRMED, active. -/
def bookingA : Booking :=
  { id := 5, user_id := 30, cafe_id := 0, booking_date := 10,
    guest_number := 2, status := .CONFIRMED, note := none, is_active := true }

/-- Concrete state: cafe 0 with two 2-seat tables (1, 2) and two slots (3, 4);
booking 5 holds the unit (table 1, slot 3, date 10). -/
def dbA : DB :=
  { cafes := [{ id := 0, is_active := true }],
    tables := [{ id := 1, cafe_id := 0, seat_number := 2, is_active := true },
               { id := 2, cafe_id := 0, seat_number := 2, is_active := true }],
    slots := [{ id := 3, cafe_id := 0, is_active := true },
              { id := 4, cafe_id := 0, is_active := true }],
    bookings := [bookingA],
    units := [{ booking_id := 5, cafe_id := 0, table_id := 1, slot_id := 3,
                booking_date := 10 }] }

/-- Concrete canceled booking: same row as `bookingA` with status CANCELED. -/
def bookingC : Booking :=
  { id := 5, user_id := 30, cafe_id := 0, booking_date := 10,
    guest_number := 2, status := .CANCELED, note := none, is_active := true }

/-- Concrete state for the cancellation scenario: booking 5 is CANCELED but
its reservation unit (table 1, slot 3, date 10) is still stored. -/
def dbCanceled : DB :=
  { cafes := [{ id := 0, is_active := true }],
    tables := [{ id := 1, cafe_id := 0, seat_number := 2, is_active := true }],
    slots := [{ id := 3, cafe_id := 0, is_active := true }],
    bookings := [bookingC],
    units := [{ booking_id := 5, cafe_id := 0, table_id := 1, slot_id := 3,
                booking_date := 10 }] }

/-- Fresh creation request for exactly the slot the canceled booking held. -/
def rebookInp : BookingCreate :=
  { guest_number := 2, note := none, status := .CONFIRMED, booking_date := 10,
    cafe_id := 0, tables_id := [1], slots_id := [3] }

/-- Concrete second booking row: id 6, CONFIRMED, active. -/
def bookingB : Booking :=
  { id := 6, user_id := 31, cafe_id := 0, booking_date := 10,
    guest_number := 2, status := .CONFIRMED, note := none, is_active := true }

/-- Concrete state with two active bookings on date 10: booking 5 holds
(table 1, slot 3), booking 6 holds (table 2, slot 3). -/
def dbTwo : DB :=
  { cafes := [{ id := 0, is_active := true }],
    tables := [{ id := 1, cafe_id := 0, seat_number := 2, is_active := true },
               { id := 2, cafe_id := 0, seat_number := 2, is_active := true }],
    slots := [{ id := 3, cafe_id := 0, is_active := true }],
    bookings := [bookingA, bookingB],
    units := [{ booking_id := 5, cafe_id := 0, table_id := 1, slot_id := 3,
                booking_date := 10 },
              { booking_id := 6, cafe_id := 0, table_id := 2, slot_id := 3,
                booking_date := 10 }] }

/-- Creation request for the cross product {1,2} × {3,4} on date 10, where
only the pair (1, 3) is taken in `dbA`. -/
def crossInp : BookingCreate :=
  { guest_number := 3, note := none, status := .CONFIRMED, booking_date := 10,
    cafe_id := 0, tables_id := [1, 2], slots_id := [3, 4] }

/-- Creation request on a free date whose two 2-seat tables cannot seat 5. -/
def fiveGuestsInp : BookingCreate :=
  { guest_number := 5, note := none, status := .CONFIRMED, booking_date := 11,
    cafe_id := 0, tables_id := [1, 2], slots_id := [4] }

/-- Concrete DONE booking row (same data as `bookingA`, status DONE). -/
def bookingDone : Booking :=
  { id := 5, user_id := 30, cafe_id := 0, booking_date := 10,
    guest_number := 2, status := .DONE, note := none, is_active := true }

/-- Concrete state with a single table and slot where active booking 5 holds
the unit (table 1, slot 3, date 10); canceling 5 in this state yields
`dbCanceled`. -/
def dbOne : DB :=
  { cafes := [{ id := 0, is_active := true }],
    tables := [{ id := 1, cafe_id := 0, seat_number := 2, is_active := true }],
    slots := [{ id := 3, cafe_id := 0, is_active := true }],
    bookings := [bookingA],
    units := [{ booking_id := 5, cafe_id := 0, table_id := 1, slot_id := 3,
                booking_date := 10 }] }

/-- Patch that only sets the status to CANCELED. -/
def cancelPatch : BookingUpdate := { status := some .CANCELED }

/-- Patch that only sets a scalar field (guest_number). -/
def uScalar : BookingUpdate := { guest_number := some 4 }

/-- Booking row after applying `uScalar` to `bookingA`. -/
def bScalar : Booking :=
  { id := 5, user_id := 30, cafe_id := 0, booking_date := 10,
    guest_number := 4, status := .CONFIRMED, note := none, is_active := true }

/-- State after the scalar-only update of booking 5 in `dbA`. -/
def dbScalar : DB :=
  { cafes := dbA.cafes, tables := dbA.tables, slots := dbA.slots,
    bookings := [bScalar], units := dbA.units }

/-- Patch that only moves the booking date to 12. -/
def uDate : BookingUpdate := { booking_date := some 12 }

/-- Patch that changes the table selection to table 2 only. -/
def uTable : BookingUpdate := { tables_id := some [2] }

/-- Creation payload naming a cafe id (7) absent from `dbA`. -/
def missingCafeInp : BookingCreate :=
  { guest_number := 2, note := none, status := .CONFIRMED, booking_date := 11,
    cafe_id := 7, tables_id := [1], slots_id := [3] }

/-- Creation payload that succeeds on `dbA`: four guests, both tables, the
free slot 4, the valid date 11. -/
def fourGuestsInp : BookingCreate :=
  { guest_number := 4, note := none, status := .CONFIRMED, booking_date := 11,
    cafe_id := 0, tables_id := [1, 2], slots_id := [4] }

/-- Booking row created by `fourGuestsInp` with user 30 and fresh id 99. -/
def bSucc : Booking :=
  { id := 99, user_id := 30, cafe_id := 0, booking_date := 11,
    guest_number := 4, status := .CONFIRMED, note := none, is_active := true }

/-- State after successfully creating `fourGuestsInp` in `dbA`: the booking
row plus its 2 × 1 reservation units. -/
def dbSucc : DB :=
  { cafes := dbA.cafes, tables := dbA.tables, slots := dbA.slots,
    bookings := [bookingA, bSucc],
    units := [{ booking_id := 5, cafe_id := 0, table_id := 1, slot_id := 3,
                booking_date := 10 },
              { booking_id := 99, cafe_id := 0, table_id := 1, slot_id := 4,
                booking_date := 11 },
              { booking_id := 99, cafe_id := 0, table_id := 2, slot_id := 4,
                booking_date := 11 }] }

/-- State after updating booking 5 in `dbA` with `uTable`: the old unit on
table 1 is deleted and replaced by the fresh unit on table 2. -/
def dbTable : DB :=
  { cafes := dbA.cafes, tables := dbA.tables, slots := dbA.slots,
    bookings := [bookingA],
    units := [{ booking_id := 5, cafe_id := 0, table_id := 2, slot_id := 3,
                booking_date := 10 }] }

/-- Booking row after applying `uDate` to `bookingA`. -/
def bDate : Booking :=
  { id := 5, user_id := 30, cafe_id := 0, booking_date := 12,
    guest_number := 2, status := .CONFIRMED, note := none, is_active := true }

/-- State after the date-only update of booking 5 in `dbA`: the booking row
says date 12 while its unit still says date 10. -/
def dbDate : DB :=
  { cafes := dbA.cafes, tables := dbA.tables, slots := dbA.slots,
    bookings := [bDate], units := dbA.units }

theorem nodup_of_dedup_length_eq {α : Type} [DecidableEq α] {l : List α}
    (h : l.dedup.length = l.length) : l.Nodup :=
  List.dedup_eq_self.mp (l.dedup_sublist.eq_of_length h)

theorem insertAllowed_iff {existing newUnits : List ReservationUnit} :
    insertAllowed existing newUnits = true ↔
      (newUnits.map atomKey).Nodup ∧
      ∀ u ∈ newUnits, ∀ v ∈ existing, atomKey v ≠ atomKey u := by
  unfold insertAllowed
  rw [Bool.and_eq_true, decide_eq_true_eq, List.all_eq_true]
  constructor
  · rintro ⟨h1, h2⟩
    refine ⟨nodup_of_dedup_length_eq h1, fun u hu v hv => ?_⟩
    have := h2 u hu
    rw [Bool.not_eq_true', List.any_eq_false] at this
    simpa using this v hv
  · rintro ⟨h1, h2⟩
    refine ⟨by rw [List.dedup_eq_self.mpr h1], fun u hu => ?_⟩
    rw [Bool.not_eq_true', List.any_eq_false]
    intro v hv
    simpa using h2 u hu v hv

theorem uqOK_append {existing newUnits : List ReservationUnit}
    (hex : uqOK existing) (h : insertAllowed existing newUnits = true) :
    uqOK (existing ++ newUnits) := by
  obtain ⟨h1, h2⟩ := insertAllowed_iff.mp h
  rw [uqOK, List.pairwise_append]
  exact ⟨hex, List.pairwise_map.mp h1, fun a ha b hb => h2 b hb a ha⟩

theorem uqOK_filter {units : List ReservationUnit}
    {p : ReservationUnit → Bool} (h : uqOK units) : uqOK (units.filter p) :=
  List.Pairwise.sublist (List.filter_sublist units) h

theorem crossUnits_length (bid cid d : Nat) (ts ss : List Nat) :
    (crossUnits bid cid d ts ss).length = ts.length * ss.length := by
  induction ts with
  | nil => simp [crossUnits]
  | cons t ts ih =>
      simp only [crossUnits, List.flatMap_cons, List.length_append,
        List.length_map] at ih ⊢
      rw [ih, List.length_cons, Nat.succ_mul, Nat.add_comm]

theorem mem_crossUnits {bid cid d : Nat} {ts ss : List Nat}
    {u : ReservationUnit} :
    u ∈ crossUnits bid cid d ts ss ↔
      ∃ t ∈ ts, ∃ s ∈ ss,
        u = { booking_id := bid, cafe_id := cid, table_id := t,
              slot_id := s, booking_date := d } := by
  simp [crossUnits, eq_comm]

theorem length_eq_dedup_length_iff {resolved l : List Nat}
    (hnd : resolved.Nodup) (hsub : ∀ x ∈ resolved, x ∈ l) :
    resolved.length = l.dedup.length ↔ ∀ x ∈ l, x ∈ resolved := by
  have hcard1 : resolved.toFinset.card = resolved.length :=
    List.toFinset_card_of_nodup hnd
  have hcard2 : l.dedup.toFinset.card = l.dedup.length :=
    List.toFinset_card_of_nodup (List.nodup_dedup l)
  have hsubF : resolved.toFinset ⊆ l.dedup.toFinset := by
    intro a ha
    rw [List.mem_toFinset] at ha ⊢
    exact List.mem_dedup.mpr (hsub a ha)
  constructor
  · intro hlen x hx
    have heqF : resolved.toFinset = l.dedup.toFinset :=
      Finset.eq_of_subset_of_card_le hsubF (by omega)
    have : x ∈ l.dedup.toFinset :=
      List.mem_toFinset.mpr (List.mem_dedup.mpr hx)
    exact List.mem_toFinset.mp (heqF ▸ this)
  · intro hall
    have heqF : resolved.toFinset = l.dedup.toFinset := by
      refine Finset.Subset.antisymm hsubF (fun a ha => ?_)
      rw [List.mem_toFinset, List.mem_dedup] at ha
      exact List.mem_toFinset.mpr (hall a ha)
    rw [← hcard1, ← hcard2, heqF]

theorem mem_resolvedTableIds {db : DB} {cafe_id : Nat} {tables_ids : List Nat}
    {x : Nat} :
    x ∈ ((db.tables.filter (fun t =>
      decide (t.id ∈ tables_ids) &&
      (decide (t.cafe_id = cafe_id) && t.is_active))).map
        (fun t => t.id)).dedup ↔
    x ∈ tables_ids ∧ ∃ t ∈ db.tables,
      t.id = x ∧ t.cafe_id = cafe_id ∧ t.is_active = true := by
  simp only [List.mem_dedup, List.mem_map, List.mem_filter, Bool.and_eq_true,
    decide_eq_true_eq]
  constructor
  · rintro ⟨t, ⟨ht, hin, hcafe, hact⟩, rfl⟩
    exact ⟨hin, t, ht, rfl, hcafe, hact⟩
  · rintro ⟨hin, t, ht, rfl, hcafe, hact⟩
    exact ⟨t, ⟨ht, hin, hcafe, hact⟩, rfl⟩

theorem mem_resolvedSlotIds {db : DB} {cafe_id : Nat} {slots_ids : List Nat}
    {x : Nat} :
    x ∈ ((db.slots.filter (fun s =>
      decide (s.id ∈ slots_ids) &&
      (decide (s.cafe_id = cafe_id) && s.is_active))).map
        (fun s => s.id)).dedup ↔
    x ∈ slots_ids ∧ ∃ s ∈ db.slots,
      s.id = x ∧ s.cafe_id = cafe_id ∧ s.is_active = true := by
  simp only [List.mem_dedup, List.mem_map, List.mem_filter, Bool.and_eq_true,
    decide_eq_true_eq]
  constructor
  · rintro ⟨s, ⟨hs, hin, hcafe, hact⟩, rfl⟩
    exact ⟨hin, s, hs, rfl, hcafe, hact⟩
  · rintro ⟨hin, s, hs, rfl, hcafe, hact⟩
    exact ⟨s, ⟨hs, hin, hcafe, hact⟩, rfl⟩

theorem resolve_ok_iff {l resolved : List Nat} {P : Nat → Prop}
    (hnd : resolved.Nodup) (hmem : ∀ x, x ∈ resolved ↔ x ∈ l ∧ P x) :
    resolved.length = l.dedup.length ↔ ∀ x ∈ l, P x := by
  have hsub : ∀ x ∈ resolved, x ∈ l := fun x hx => ((hmem x).mp hx).1
  rw [length_eq_dedup_length_iff hnd hsub]
  constructor
  · intro h x hx
    exact ((hmem x).mp (h x hx)).2
  · intro h x hx
    exact (hmem x).mpr ⟨hx, h x hx⟩

theorem validate_relations_ok_iff {db : DB} {cafe_id : Nat}
    {tables_ids slots_ids : List Nat} :
    validate_relations db cafe_id tables_ids slots_ids = .ok () ↔
      tables_ids ≠ [] ∧ slots_ids ≠ [] ∧
      (∀ tid ∈ tables_ids, ∃ t ∈ db.tables,
        t.id = tid ∧ t.cafe_id = cafe_id ∧ t.is_active = true) ∧
      (∀ sid ∈ slots_ids, ∃ s ∈ db.slots,
        s.id = sid ∧ s.cafe_id = cafe_id ∧ s.is_active = true) := by
  have hT := resolve_ok_iff (l := tables_ids)
    (P := fun tid => ∃ t ∈ db.tables,
      t.id = tid ∧ t.cafe_id = cafe_id ∧ t.is_active = true)
    (List.nodup_dedup _) (fun x => mem_resolvedTableIds)
  have hS := resolve_ok_iff (l := slots_ids)
    (P := fun sid => ∃ s ∈ db.slots,
      s.id = sid ∧ s.cafe_id = cafe_id ∧ s.is_active = true)
    (List.nodup_dedup _) (fun x => mem_resolvedSlotIds)
  unfold validate_relations
  split_ifs with h1 h2 h3 h4
  · rw [List.isEmpty_iff] at h1
    subst h1
    simp
  · rw [List.isEmpty_iff] at h2
    subst h2
    simp
  · refine iff_of_false (by simp) ?_
    rintro ⟨-, -, hres, -⟩
    exact h3 (hT.mpr hres)
  · refine iff_of_false (by simp) ?_
    rintro ⟨-, -, -, hres⟩
    exact h4 (hS.mpr hres)
  · refine iff_of_true rfl ⟨?_, ?_, hT.mp (not_ne_iff.mp h3),
      hS.mp (not_ne_iff.mp h4)⟩
    · intro he
      subst he
      exact h1 rfl
    · intro he
      subst he
      exact h2 rfl

theorem unitBlocks_iff {db : DB} {ex : Option Nat} {d t s : Nat}
    {u : ReservationUnit} :
    unitBlocks db ex d t s u = true ↔
      u.table_id = t ∧ u.slot_id = s ∧ u.booking_date = d ∧
      ∃ b ∈ db.bookings, b.id = u.booking_id ∧ b.is_active = true ∧
        b.status ≠ BookingStatus.CANCELED ∧
        ∀ e, ex = some e → b.id ≠ e := by
  unfold unitBlocks
  cases ex <;>
    simp [List.any_eq_true, and_assoc] <;>
    tauto

theorem pairConflicts_iff_any {db : DB} {ex : Option Nat} {d t s : Nat} :
    pairConflicts db ex d t s ↔
      db.units.any (unitBlocks db ex d t s) = true := by
  rw [List.any_eq_true]
  unfold pairConflicts
  exact exists_congr fun u => and_congr_right fun _ => unitBlocks_iff.symm

theorem check_tables_availability_iff {db : DB} {cafe_id : Nat}
    {ts ss : List Nat} {d : Nat} {ex : Option Nat} :
    check_tables_availability db cafe_id ts ss d ex = true ↔
      ∀ t ∈ ts, ∀ s ∈ ss, ¬ pairConflicts db ex d t s := by
  unfold check_tables_availability
  simp only [List.all_eq_true, Bool.not_eq_true']
  refine forall₂_congr fun t _ => forall₂_congr fun s _ => ?_
  rw [pairConflicts_iff_any]
  simp

theorem filter_mem_length_eq {α : Type} {rows : List α} {ident : α → Nat}
    {l : List Nat} (hnd : (rows.map ident).Nodup)
    (hall : ∀ x ∈ l, ∃ r ∈ rows, ident r = x) :
    (rows.filter (fun r => decide (ident r ∈ l))).length = l.dedup.length := by
  have hndF : ((rows.filter (fun r => decide (ident r ∈ l))).map ident).Nodup :=
    hnd.sublist ((List.filter_sublist rows).map ident)
  have hsub : ∀ x ∈ (rows.filter (fun r => decide (ident r ∈ l))).map ident,
      x ∈ l := by
    intro x hx
    rw [List.mem_map] at hx
    obtain ⟨r, hr, rfl⟩ := hx
    have := (List.mem_filter.mp hr).2
    simpa using this
  have hres : ((rows.filter (fun r => decide (ident r ∈ l))).map ident).length
      = l.dedup.length := by
    rw [length_eq_dedup_length_iff hndF hsub]
    intro x hx
    obtain ⟨r, hr, rfl⟩ := hall x hx
    rw [List.mem_map]
    exact ⟨r, List.mem_filter.mpr ⟨hr, by simpa using hx⟩, rfl⟩
  rw [← hres, List.length_map]

theorem create_ok_inv {db : DB} {obj_in : BookingCreate}
    {user_id today new_id : Nat} {db' : DB} {b : Booking}
    (h : create_with_validation db obj_in user_id today new_id
      = .ok (db', b)) :
    (∃ c, db.cafes.find? (fun c => decide (c.id = obj_in.cafe_id)) = some c) ∧
    validate_booking_date obj_in.booking_date today = true ∧
    validate_relations db obj_in.cafe_id obj_in.tables_id obj_in.slots_id
      = .ok () ∧
    validate_tables_capacity db obj_in.tables_id obj_in.guest_number = true ∧
    check_tables_availability db obj_in.cafe_id obj_in.tables_id
      obj_in.slots_id obj_in.booking_date none = true ∧
    insertAllowed db.units (createdUnits db obj_in new_id) = true ∧
    b = newBooking obj_in user_id new_id ∧
    db' = { db with
            bookings := db.bookings ++ [newBooking obj_in user_id new_id],
            units := db.units ++ createdUnits db obj_in new_id } := by
  unfold create_with_validation at h
  split at h
  next hfind => exact absurd h (by simp)
  next c hfind =>
    split at h
    next hdate => exact absurd h (by simp)
    next hdate =>
      split at h
      next e heq => exact absurd h (by simp)
      next a heq =>
        split at h
        next hcap => exact absurd h (by simp)
        next hcap =>
          split at h
          next hav => exact absurd h (by simp)
          next hav =>
            split at h
            next hins => exact absurd h (by simp)
            next hins =>
              rw [Except.ok.injEq, Prod.mk.injEq] at h
              obtain ⟨hdb, hb⟩ := h
              subst hdb hb
              cases a
              refine ⟨⟨c, hfind⟩, by simpa using hdate, heq,
                by simpa using hcap, by simpa using hav,
                by simpa using hins, rfl, rfl⟩

theorem update_ok_inv {db : DB} {b0 : Booking} {p : BookingUpdate}
    {today : Nat} {db' : DB} {b' : Booking}
    (h : update_with_validation db b0 p today = .ok (db', b')) :
    ¬ b0.booking_date < today ∧ b0.status ≠ BookingStatus.DONE ∧
    b' = applyScalar b0 p ∧
    (((p.tables_id.isSome || p.slots_id.isSome) = true ∧
      validate_relations db (p.cafe_id.getD (applyScalar b0 p).cafe_id)
        (targetTablesIds db b0 p) (targetSlotsIds db b0 p) = .ok () ∧
      insertAllowed
        (db.units.filter (fun u => !decide (u.booking_id = b0.id)))
        (crossUnits b0.id (p.cafe_id.getD (applyScalar b0 p).cafe_id)
          (p.booking_date.getD (applyScalar b0 p).booking_date)
          (targetTablesIds db b0 p) (targetSlotsIds db b0 p)) = true ∧
      db' = { db with
              bookings := db.bookings.map (fun b =>
                if b.id = b0.id then applyScalar b0 p else b),
              units := db.units.filter (fun u =>
                  !decide (u.booking_id = b0.id))
                ++ crossUnits b0.id
                  (p.cafe_id.getD (applyScalar b0 p).cafe_id)
                  (p.booking_date.getD (applyScalar b0 p).booking_date)
                  (targetTablesIds db b0 p) (targetSlotsIds db b0 p) }) ∨
     ((p.tables_id.isSome || p.slots_id.isSome) = false ∧
      db' = { db with
              bookings := db.bookings.map (fun b =>
                if b.id = b0.id then applyScalar b0 p else b) })) := by
  unfold update_with_validation at h
  split at h
  next hlt => exact absurd h (by simp)
  next hlt =>
    split at h
    next hdone => exact absurd h (by simp)
    next hdone =>
      split at h
      next hv => exact absurd h (by simp)
      next hv =>
        split at h
        next hsel =>
          split at h
          next e heq => exact absurd h (by simp)
          next a heq =>
            split at h
            next hins => exact absurd h (by simp)
            next hins =>
              rw [Except.ok.injEq, Prod.mk.injEq] at h
              obtain ⟨hdb, hb⟩ := h
              subst hdb hb
              cases a
              exact ⟨hlt, hdone, rfl,
                Or.inl ⟨hsel, heq, by simpa using hins, rfl⟩⟩
        next hsel =>
          rw [Except.ok.injEq, Prod.mk.injEq] at h
          obtain ⟨hdb, hb⟩ := h
          subst hdb hb
          exact ⟨hlt, hdone, rfl,
            Or.inr ⟨by simpa using hsel, rfl⟩⟩

theorem noDoubleBooking_of_uqOK {db : DB} (h : uqOK db.units) :
    noDoubleBooking db := by
  unfold noDoubleBooking
  exact List.Pairwise.imp (fun hne heq => absurd heq hne) h

/-- C2: `check_tables_availability` returns true iff no pair of the cross
product tables_ids × slots_ids conflicts with a reservation unit of an
active, non-CANCELED booking distinct from the excluded one; and when it
returns false (with all earlier validation stages passing),
`create_with_validation` rejects the whole booking with the occupied error. -/
theorem C2_cross_product_availability :
    (∀ (db : DB) (cafe_id : Nat) (ts ss : List Nat) (d : Nat)
        (ex : Option Nat),
      check_tables_availability db cafe_id ts ss d ex = true ↔
        ∀ t ∈ ts, ∀ s ∈ ss, ¬ pairConflicts db ex d t s) ∧
    (∀ (db : DB) (obj_in : BookingCreate) (user_id today new_id : Nat)
        (c : Cafe),
      db.cafes.find? (fun c => decide (c.id = obj_in.cafe_id)) = some c →
      validate_booking_date obj_in.booking_date today = true →
      validate_relations db obj_in.cafe_id obj_in.tables_id obj_in.slots_id
        = .ok () →
      validate_tables_capacity db obj_in.tables_id obj_in.guest_number
        = true →
      check_tables_availability db obj_in.cafe_id obj_in.tables_id
        obj_in.slots_id obj_in.booking_date none = false →
      create_with_validation db obj_in user_id today new_id
        = .error .occupied) := by
  constructor
  · intro db cafe_id ts ss d ex
    exact check_tables_availability_iff
  · intro db obj_in user_id today new_id c hfind hdate hrel hcap hav
    unfold create_with_validation
    rw [hfind]
    simp [hdate, hrel, hcap, hav]

/-- Witness for C2: in `dbA` the pair (table 1, slot 3) is taken on date 10,
so the request for tables {1,2} × slots {3,4} is rejected wholesale even
though the three other pairs are free. -/
theorem C2_witness :
    create_with_validation dbA crossInp 30 10 99 = .error .occupied :=
  C2_cross_product_availability.2 dbA crossInp 30 10 99
    { id := 0, is_active := true } (by rfl) (by rfl) (by rfl) (by rfl)
    (by rfl)

/-- C6: `validate_tables_capacity` returns true iff at least one table
resolves from `tables_ids` and the resolved tables' seat sum reaches
`guest_number`; when no table resolves it returns false regardless of
`guest_number`; and a false result makes `create_with_validation` fail with
an error carrying both the requested guest count and the available seats. -/
theorem C6_capacity_check :
    (∀ (db : DB) (ts : List Nat) (g : Int),
      validate_tables_capacity db ts g = true ↔
        (∃ t ∈ db.tables, t.id ∈ ts) ∧
        ((db.tables.filter (fun t => decide (t.id ∈ ts))).map
          (fun t => t.seat_number)).sum ≥ g) ∧
    (∀ (db : DB) (ts : List Nat) (g : Int),
      (∀ t ∈ db.tables, t.id ∉ ts) →
      validate_tables_capacity db ts g = false) ∧
    (∀ (db : DB) (obj_in : BookingCreate) (user_id today new_id : Nat)
        (c : Cafe),
      db.cafes.find? (fun c => decide (c.id = obj_in.cafe_id)) = some c →
      validate_booking_date obj_in.booking_date today = true →
      validate_relations db obj_in.cafe_id obj_in.tables_id obj_in.slots_id
        = .ok () →
      validate_tables_capacity db obj_in.tables_id obj_in.guest_number
        = false →
      create_with_validation db obj_in user_id today new_id
        = .error (.insufficientSeats obj_in.guest_number
          (((db.tables.filter (fun t =>
            decide (t.id ∈ obj_in.tables_id))).map
              (fun t => t.seat_number)).sum))) := by
  refine ⟨?_, ?_, ?_⟩
  · intro db ts g
    unfold validate_tables_capacity
    split_ifs with hf
    · rw [List.isEmpty_iff] at hf
      refine iff_of_false (by simp) ?_
      rintro ⟨⟨t, ht, hin⟩, -⟩
      have := List.filter_eq_nil_iff.mp hf t ht
      simp [hin] at this
    · rw [decide_eq_true_eq]
      constructor
      · intro hsum
        refine ⟨?_, hsum⟩
        have hne : db.tables.filter (fun t => decide (t.id ∈ ts)) ≠ [] := by
          intro he
          rw [← List.isEmpty_iff] at he
          exact hf he
        obtain ⟨t, ht⟩ := List.exists_mem_of_ne_nil _ hne
        have := List.mem_filter.mp ht
        exact ⟨t, this.1, by simpa using this.2⟩
      · rintro ⟨-, hsum⟩
        exact hsum
  · intro db ts g h
    unfold validate_tables_capacity
    split_ifs with hf
    · rfl
    · exfalso
      apply hf
      rw [List.isEmpty_iff, List.filter_eq_nil_iff]
      intro t ht
      simpa using h t ht
  · intro db obj_in user_id today new_id c hfind hdate hrel hcap
    unfold create_with_validation
    rw [hfind]
    simp [hdate, hrel, hcap]

/-- Witness for C6: in `dbA` the tables seat [2, 2]; five guests are rejected
with the counts (5 requested, 4 available) surfaced in the error. -/
theorem C6_witness :
    create_with_validation dbA fiveGuestsInp 30 10 99
      = .error (.insufficientSeats 5 4) := by
  rw [C6_capacity_check.2.2 dbA fiveGuestsInp 30 10 99
    { id := 0, is_active := true } (by rfl) (by rfl) (by rfl) (by rfl)]
  rfl

/-- C7: a booking dated strictly before today rejects any update; a DONE
booking rejects any update; any create or update that targets a
booking_date strictly before today fails; and `validate_booking_date` holds
exactly for dates that are today or later. -/
theorem C7_frozen_past_and_done :
    (∀ (db : DB) (b : Booking) (p : BookingUpdate) (today : Nat),
      b.booking_date < today →
      update_with_validation db b p today = .error .pastBooking) ∧
    (∀ (db : DB) (b : Booking) (p : BookingUpdate) (today : Nat),
      b.status = .DONE →
      ∃ e, update_with_validation db b p today = .error e) ∧
    (∀ (db : DB) (obj_in : BookingCreate) (user_id today new_id : Nat),
      obj_in.booking_date < today →
      ∃ e, create_with_validation db obj_in user_id today new_id
        = .error e) ∧
    (∀ (db : DB) (b : Booking) (p : BookingUpdate) (today d : Nat),
      p.booking_date = some d → d < today →
      ∃ e, update_with_validation db b p today = .error e) ∧
    (∀ (d today : Nat), validate_booking_date d today = true ↔ d ≥ today) := by
  refine ⟨?_, ?_, ?_, ?_, ?_⟩
  · intro db b p today h
    unfold update_with_validation
    simp [h]
  · intro db b p today h
    by_cases hlt : b.booking_date < today
    · exact ⟨.pastBooking, by unfold update_with_validation; simp [hlt]⟩
    · exact ⟨.doneBooking, by unfold update_with_validation; simp [hlt, h]⟩
  · intro db obj_in user_id today new_id h
    cases hfind : db.cafes.find? (fun c => decide (c.id = obj_in.cafe_id))
      with
    | none =>
        exact ⟨.cafeNotFound, by unfold create_with_validation; rw [hfind]⟩
    | some c =>
        refine ⟨.pastDate, ?_⟩
        unfold create_with_validation
        rw [hfind]
        have : validate_booking_date obj_in.booking_date today = false := by
          unfold validate_booking_date
          simpa using Nat.not_le_of_lt h
        simp [this]
  · intro db b p today d hp h
    by_cases hlt : b.booking_date < today
    · exact ⟨.pastBooking, by unfold update_with_validation; simp [hlt]⟩
    · by_cases hdone : b.status = BookingStatus.DONE
      · exact ⟨.doneBooking,
          by unfold update_with_validation; simp [hlt, hdone]⟩
      · refine ⟨.pastDate, ?_⟩
        unfold update_with_validation
        have hv : validate_booking_date d today = false := by
          unfold validate_booking_date
          simpa using Nat.not_le_of_lt h
        simp [hlt, hdone, hp, hv]
  · intro d today
    unfold validate_booking_date
    simp

/-- Witness for C7: on day 11 the booking dated 10 is frozen; a DONE booking
rejects updates; creating for date 10 on day 11 fails; updating the date to
9 on day 10 fails. -/
theorem C7_witness :
    update_with_validation dbA bookingA {} 11 = .error .pastBooking ∧
    (∃ e, update_with_validation dbA bookingDone {} 10 = .error e) ∧
    (∃ e, create_with_validation dbA rebookInp 30 11 99 = .error e) ∧
    (∃ e, update_with_validation dbA bookingA { booking_date := some 9 } 10
      = .error e) :=
  ⟨C7_frozen_past_and_done.1 dbA bookingA {} 11 (by decide),
   C7_frozen_past_and_done.2.1 dbA bookingDone {} 10 (by rfl),
   C7_frozen_past_and_done.2.2.1 dbA rebookInp 30 11 99 (by decide),
   C7_frozen_past_and_done.2.2.2.1 dbA bookingA { booking_date := some 9 }
     10 9 rfl (by decide)⟩

/-- C3 counterexample: canceling booking 5 in `dbOne` (a pure status update)
leaves its reservation unit (table 1, slot 3, date 10) in the store; the
availability pre-check then accepts a new booking of exactly (table 1,
slot 3, date 10), but the creation fails at commit with the
`uq_reservation_atom` uniqueness violation instead of succeeding, because
the unique constraint ignores the booking status. -/
theorem C3_cancellation_blocked_at_commit :
    (update_with_validation dbOne bookingA cancelPatch 10).toOption.map
      Prod.fst = some dbCanceled ∧
    check_tables_availability dbCanceled 0 [1] [3] 10 none = true ∧
    create_with_validation dbCanceled rebookInp 31 10 99
      = .error .uniqueViolation :=
  ⟨by rfl, by decide, by rfl⟩

/-- C8: an update that supplies none of tables_id, slots_id, booking_date
keeps every reservation unit (and every other store) untouched and applies
exactly the supplied scalar fields to the booking row. -/
theorem C8_scalar_update_frame :
    ∀ (db : DB) (b : Booking) (p : BookingUpdate) (today : Nat) (db' : DB)
      (b' : Booking),
      p.tables_id = none → p.slots_id = none → p.booking_date = none →
      update_with_validation db b p today = .ok (db', b') →
      db'.units = db.units ∧ db'.cafes = db.cafes ∧ db'.tables = db.tables ∧
      db'.slots = db.slots ∧
      db'.bookings
        = db.bookings.map (fun x => if x.id = b.id then b' else x) ∧
      b' = { b with
        cafe_id := p.cafe_id.getD b.cafe_id,
        guest_number := p.guest_number.getD b.guest_number,
        note := p.note.getD b.note,
        status := p.status.getD b.status,
        is_active := p.is_active.getD b.is_active } := by
  intro db b p today db' b' h1 h2 h3 h
  unfold update_with_validation at h
  rw [h1, h2, h3] at h
  simp only [Option.isSome_none, Bool.or_self, Bool.false_eq_true,
    if_false] at h
  split_ifs at h with hlt hdone
  rw [Except.ok.injEq, Prod.mk.injEq] at h
  obtain ⟨hdb, hb⟩ := h
  subst hdb hb
  refine ⟨rfl, rfl, rfl, rfl, rfl, ?_⟩
  unfold applyScalar
  rw [h3]
  rfl

/-- Witness for C8: updating only guest_number on `dbA` yields `dbScalar`
with unchanged units and the one scalar field applied. -/
theorem C8_witness :
    dbScalar.units = dbA.units ∧ dbScalar.cafes = dbA.cafes ∧
    dbScalar.tables = dbA.tables ∧ dbScalar.slots = dbA.slots ∧
    dbScalar.bookings = dbA.bookings.map
      (fun x => if x.id = bookingA.id then bScalar else x) ∧
    bScalar = { bookingA with
      cafe_id := uScalar.cafe_id.getD bookingA.cafe_id,
      guest_number := uScalar.guest_number.getD bookingA.guest_number,
      note := uScalar.note.getD bookingA.note,
      status := uScalar.status.getD bookingA.status,
      is_active := uScalar.is_active.getD bookingA.is_active } :=
  C8_scalar_update_frame dbA bookingA uScalar 10 dbScalar bScalar rfl rfl
    rfl (by rfl)

/-- C10: an update that supplies a new (non-past) booking_date but neither
tables_id nor slots_id changes the booking row's date while every
reservation unit keeps its old date, so a previously synchronized booking
ends with units dated differently from the booking itself. -/
theorem C10_date_only_update_desyncs :
    ∀ (db : DB) (b : Booking) (p : BookingUpdate) (today d : Nat) (db' : DB)
      (b' : Booking),
      p.booking_date = some d → p.tables_id = none → p.slots_id = none →
      update_with_validation db b p today = .ok (db', b') →
      b'.booking_date = d ∧ b'.id = b.id ∧ db'.units = db.units ∧
      ((∀ u ∈ db.units, u.booking_id = b.id →
          u.booking_date = b.booking_date) →
       d ≠ b.booking_date →
       ∀ u ∈ db'.units, u.booking_id = b.id →
         u.booking_date ≠ b'.booking_date) := by
  intro db b p today d db' b' hp h1 h2 h
  unfold update_with_validation at h
  rw [h1, h2, hp] at h
  simp only [Option.isSome_none, Bool.or_self, Bool.false_eq_true,
    if_false] at h
  split_ifs at h with hlt hdone hv
  rw [Except.ok.injEq, Prod.mk.injEq] at h
  obtain ⟨hdb, hb⟩ := h
  subst hdb hb
  have hbd : (applyScalar b p).booking_date = d := by
    unfold applyScalar
    rw [hp]
    rfl
  refine ⟨hbd, rfl, rfl, ?_⟩
  intro hsync hne u hu hbid
  rw [hbd, hsync u hu hbid]
  exact fun he => hne he.symm

/-- Witness for C10: moving the date of booking 5 from 10 to 12 in `dbA`
leaves its unit dated 10 while the booking row says 12. -/
theorem C10_witness :
    bDate.booking_date = 12 ∧ bDate.id = bookingA.id ∧
    dbDate.units = dbA.units ∧
    ((∀ u ∈ dbA.units, u.booking_id = bookingA.id →
        u.booking_date = bookingA.booking_date) →
     12 ≠ bookingA.booking_date →
     ∀ u ∈ dbDate.units, u.booking_id = bookingA.id →
       u.booking_date ≠ bDate.booking_date) :=
  C10_date_only_update_desyncs dbA bookingA uDate 10 12 dbDate bDate rfl rfl
    rfl (by rfl)

theorem validate_relations_error_ne_occupied {db : DB} {cafe_id : Nat}
    {ts ss : List Nat} {e : BookingError}
    (h : validate_relations db cafe_id ts ss = .error e) :
    e ≠ .occupied := by
  unfold validate_relations at h
  split_ifs at h <;> cases h <;> decide

/-- C9: `update_with_validation` performs no availability pre-check — it can
never fail with the occupied error that creation raises — and in the
concrete two-booking state a colliding new table selection passes relation
validation and surfaces only as the commit-time uniqueness violation. -/
theorem C9_update_conflicts_surface_as_constraint :
    (∀ (db : DB) (b : Booking) (p : BookingUpdate) (today : Nat)
        (e : BookingError),
      update_with_validation db b p today = .error e → e ≠ .occupied) ∧
    (validate_relations dbTwo 0 [1] [3] = .ok () ∧
     update_with_validation dbTwo bookingB { tables_id := some [1] } 10
       = .error .uniqueViolation) := by
  constructor
  · intro db b p today e h
    unfold update_with_validation at h
    split_ifs at h with hlt hdone hv hsel hins
    · cases h
      decide
    · cases h
      decide
    · cases h
      decide
    · split at h
      next e' heq =>
        cases h
        exact validate_relations_error_ne_occupied heq
      next a heq =>
        cases h
        decide
    · split at h
      next e' heq =>
        cases h
        exact validate_relations_error_ne_occupied heq
      next a heq =>
        exact absurd h (by simp)
  · exact ⟨by rfl, by rfl⟩

/-- Witness for C9: the concrete collision from the second conjunct indeed
produces a non-occupied error. -/
theorem C9_witness : (BookingError.uniqueViolation ≠ BookingError.occupied) :=
  C9_update_conflicts_surface_as_constraint.1 dbTwo bookingB
    { tables_id := some [1] } 10 .uniqueViolation (by rfl)

/-- C4: creation validates, in order — cafe exists, date not past, non-empty
id lists all resolving to active rows of the target cafe, capacity,
availability — each failure raising the corresponding error with nothing
persisted (the error carries no new state, so the store is exactly as
before); a success implies every check passed and appends exactly the
booking row and its reservation units.  The last conjunct characterizes the
relation check as the claim words it. -/
theorem C4_creation_gauntlet :
    ∀ (db : DB) (obj_in : BookingCreate) (user_id today new_id : Nat),
      (db.cafes.find? (fun c => decide (c.id = obj_in.cafe_id)) = none →
        create_with_validation db obj_in user_id today new_id
          = .error .cafeNotFound) ∧
      (∀ c, db.cafes.find? (fun c => decide (c.id = obj_in.cafe_id))
          = some c →
        validate_booking_date obj_in.booking_date today = false →
        create_with_validation db obj_in user_id today new_id
          = .error .pastDate) ∧
      (∀ c e, db.cafes.find? (fun c => decide (c.id = obj_in.cafe_id))
          = some c →
        validate_booking_date obj_in.booking_date today = true →
        validate_relations db obj_in.cafe_id obj_in.tables_id obj_in.slots_id
          = .error e →
        create_with_validation db obj_in user_id today new_id = .error e) ∧
      (∀ c, db.cafes.find? (fun c => decide (c.id = obj_in.cafe_id))
          = some c →
        validate_booking_date obj_in.booking_date today = true →
        validate_relations db obj_in.cafe_id obj_in.tables_id obj_in.slots_id
          = .ok () →
        validate_tables_capacity db obj_in.tables_id obj_in.guest_number
          = false →
        create_with_validation db obj_in user_id today new_id
          = .error (.insufficientSeats obj_in.guest_number
            (((db.tables.filter (fun t =>
              decide (t.id ∈ obj_in.tables_id))).map
                (fun t => t.seat_number)).sum))) ∧
      (∀ c, db.cafes.find? (fun c => decide (c.id = obj_in.cafe_id))
          = some c →
        validate_booking_date obj_in.booking_date today = true →
        validate_relations db obj_in.cafe_id obj_in.tables_id obj_in.slots_id
          = .ok () →
        validate_tables_capacity db obj_in.tables_id obj_in.guest_number
          = true →
        check_tables_availability db obj_in.cafe_id obj_in.tables_id
          obj_in.slots_id obj_in.booking_date none = false →
        create_with_validation db obj_in user_id today new_id
          = .error .occupied) ∧
      (∀ (db' : DB) (b : Booking),
        create_with_validation db obj_in user_id today new_id
          = .ok (db', b) →
        (∃ c, db.cafes.find? (fun c => decide (c.id = obj_in.cafe_id))
          = some c) ∧
        validate_booking_date obj_in.booking_date today = true ∧
        validate_relations db obj_in.cafe_id obj_in.tables_id obj_in.slots_id
          = .ok () ∧
        validate_tables_capacity db obj_in.tables_id obj_in.guest_number
          = true ∧
        check_tables_availability db obj_in.cafe_id obj_in.tables_id
          obj_in.slots_id obj_in.booking_date none = true ∧
        b = newBooking obj_in user_id new_id ∧
        db'.cafes = db.cafes ∧ db'.tables = db.tables ∧
        db'.slots = db.slots ∧ db'.bookings = db.bookings ++ [b] ∧
        db'.units = db.units ++ createdUnits db obj_in new_id) ∧
      (validate_relations db obj_in.cafe_id obj_in.tables_id obj_in.slots_id
          = .ok () ↔
        obj_in.tables_id ≠ [] ∧ obj_in.slots_id ≠ [] ∧
        (∀ tid ∈ obj_in.tables_id, ∃ t ∈ db.tables,
          t.id = tid ∧ t.cafe_id = obj_in.cafe_id ∧ t.is_active = true) ∧
        (∀ sid ∈ obj_in.slots_id, ∃ s ∈ db.slots,
          s.id = sid ∧ s.cafe_id = obj_in.cafe_id ∧ s.is_active = true)) := by
  intro db obj_in user_id today new_id
  refine ⟨?_, ?_, ?_, ?_, ?_, ?_, validate_relations_ok_iff⟩
  · intro hfind
    unfold create_with_validation
    rw [hfind]
  · intro c hfind hdate
    unfold create_with_validation
    rw [hfind]
    simp [hdate]
  · intro c e hfind hdate hrel
    unfold create_with_validation
    rw [hfind]
    simp [hdate, hrel]
  · intro c hfind hdate hrel hcap
    unfold create_with_validation
    rw [hfind]
    simp [hdate, hrel, hcap]
  · intro c hfind hdate hrel hcap hav
    unfold create_with_validation
    rw [hfind]
    simp [hdate, hrel, hcap, hav]
  · intro db' b h
    obtain ⟨hc, hdate, hrel, hcap, hav, -, hb, hdb'⟩ := create_ok_inv h
    subst hb hdb'
    exact ⟨hc, hdate, hrel, hcap, hav, rfl, rfl, rfl, rfl, rfl, rfl⟩

/-- Witness for C4: a creation naming an absent cafe fails with not-found,
and the successful creation of `fourGuestsInp` in `dbA` passes every check
and appends exactly its booking row and units. -/
theorem C4_witness :
    create_with_validation dbA missingCafeInp 30 10 99
      = .error .cafeNotFound ∧
    ((∃ c, dbA.cafes.find? (fun c =>
      decide (c.id = fourGuestsInp.cafe_id)) = some c) ∧
     validate_booking_date fourGuestsInp.booking_date 10 = true ∧
     validate_relations dbA fourGuestsInp.cafe_id fourGuestsInp.tables_id
       fourGuestsInp.slots_id = .ok () ∧
     validate_tables_capacity dbA fourGuestsInp.tables_id
       fourGuestsInp.guest_number = true ∧
     check_tables_availability dbA fourGuestsInp.cafe_id
       fourGuestsInp.tables_id fourGuestsInp.slots_id
       fourGuestsInp.booking_date none = true ∧
     bSucc = newBooking fourGuestsInp 30 99 ∧
     dbSucc.cafes = dbA.cafes ∧ dbSucc.tables = dbA.tables ∧
     dbSucc.slots = dbA.slots ∧ dbSucc.bookings = dbA.bookings ++ [bSucc] ∧
     dbSucc.units = dbA.units ++ createdUnits dbA fourGuestsInp 99) :=
  ⟨(C4_creation_gauntlet dbA missingCafeInp 30 10 99).1 (by rfl),
   (C4_creation_gauntlet dbA fourGuestsInp 30 10 99).2.2.2.2.2.1 dbSucc
     bSucc (by rfl)⟩

/-- C5: a successful creation appends exactly
|distinct tables| × |distinct slots| reservation units, each carrying the
new booking's id, the cafe and the booking date; a successful update that
supplied tables_id or slots_id removes every unit of the booking and
appends exactly |target tables| × |target slots| fresh ones, all owned by
the booking, and no unit of the booking other than these survives. -/
theorem C5_materialization_count :
    (∀ (db : DB) (obj_in : BookingCreate) (user_id today new_id : Nat)
        (db' : DB) (b : Booking),
      (db.tables.map (fun t => t.id)).Nodup →
      (db.slots.map (fun s => s.id)).Nodup →
      create_with_validation db obj_in user_id today new_id = .ok (db', b) →
      db'.units = db.units ++ createdUnits db obj_in new_id ∧
      (createdUnits db obj_in new_id).length
        = obj_in.tables_id.dedup.length * obj_in.slots_id.dedup.length ∧
      ∀ u ∈ createdUnits db obj_in new_id,
        u.booking_id = b.id ∧ u.cafe_id = obj_in.cafe_id ∧
        u.booking_date = obj_in.booking_date) ∧
    (∀ (db : DB) (b0 : Booking) (p : BookingUpdate) (today : Nat)
        (db' : DB) (b' : Booking),
      p.tables_id ≠ none ∨ p.slots_id ≠ none →
      update_with_validation db b0 p today = .ok (db', b') →
      ∃ nu,
        db'.units = db.units.filter (fun u => !decide (u.booking_id = b0.id))
          ++ nu ∧
        nu.length = (targetTablesIds db b0 p).length
          * (targetSlotsIds db b0 p).length ∧
        (∀ u ∈ nu, u.booking_id = b0.id) ∧
        (∀ u ∈ db'.units, u.booking_id = b0.id → u ∈ nu)) := by
  constructor
  · intro db obj_in user_id today new_id db' b hT hS h
    obtain ⟨-, -, hrel, -, -, -, hb, hdb'⟩ := create_ok_inv h
    subst hb hdb'
    obtain ⟨-, -, hresT, hresS⟩ := validate_relations_ok_iff.mp hrel
    have hallT : ∀ x ∈ obj_in.tables_id, ∃ r ∈ db.tables, r.id = x := by
      intro x hx
      obtain ⟨t, ht, hid, -, -⟩ := hresT x hx
      exact ⟨t, ht, hid⟩
    have hallS : ∀ x ∈ obj_in.slots_id, ∃ r ∈ db.slots, r.id = x := by
      intro x hx
      obtain ⟨s, hs, hid, -, -⟩ := hresS x hx
      exact ⟨s, hs, hid⟩
    refine ⟨rfl, ?_, ?_⟩
    · unfold createdUnits
      rw [crossUnits_length, List.length_map, List.length_map,
        filter_mem_length_eq hT hallT, filter_mem_length_eq hS hallS]
    · intro u hu
      unfold createdUnits at hu
      rw [mem_crossUnits] at hu
      obtain ⟨t, -, s, -, rfl⟩ := hu
      exact ⟨rfl, rfl, rfl⟩
  · intro db b0 p today db' b' hne h
    obtain ⟨-, -, -, hcase⟩ := update_ok_inv h
    rcases hcase with ⟨hsel, hrel, hins, hdb'⟩ | ⟨hsel, hdb'⟩
    · subst hdb'
      refine ⟨crossUnits b0.id (p.cafe_id.getD (applyScalar b0 p).cafe_id)
        (p.booking_date.getD (applyScalar b0 p).booking_date)
        (targetTablesIds db b0 p) (targetSlotsIds db b0 p),
        rfl, crossUnits_length _ _ _ _ _, ?_, ?_⟩
      · intro u hu
        rw [mem_crossUnits] at hu
        obtain ⟨t, -, s, -, rfl⟩ := hu
        rfl
      · intro u hu hbid
        rcases List.mem_append.mp hu with hmem | hmem
        · exfalso
          have := (List.mem_filter.mp hmem).2
          simp [hbid] at this
        · exact hmem
    · exfalso
      simp only [Bool.or_eq_false_iff] at hsel
      obtain ⟨hs1, hs2⟩ := hsel
      rcases hne with hne | hne
      · apply hne
        cases hpt : p.tables_id with
        | none => rfl
        | some v => rw [hpt] at hs1; simp at hs1
      · apply hne
        cases hps : p.slots_id with
        | none => rfl
        | some v => rw [hps] at hs2; simp at hs2

/-- Witness for C5: creating `fourGuestsInp` in `dbA` adds 2 × 1 units;
updating booking 5's tables to {2} deletes its old unit and inserts 1 × 1
fresh one. -/
theorem C5_witness :
    (dbSucc.units = dbA.units ++ createdUnits dbA fourGuestsInp 99 ∧
     (createdUnits dbA fourGuestsInp 99).length
       = fourGuestsInp.tables_id.dedup.length
         * fourGuestsInp.slots_id.dedup.length ∧
     ∀ u ∈ createdUnits dbA fourGuestsInp 99,
       u.booking_id = bSucc.id ∧ u.cafe_id = fourGuestsInp.cafe_id ∧
       u.booking_date = fourGuestsInp.booking_date) ∧
    (∃ nu,
      dbTable.units = dbA.units.filter (fun u =>
        !decide (u.booking_id = bookingA.id)) ++ nu ∧
      nu.length = (targetTablesIds dbA bookingA uTable).length
        * (targetSlotsIds dbA bookingA uTable).length ∧
      (∀ u ∈ nu, u.booking_id = bookingA.id) ∧
      (∀ u ∈ dbTable.units, u.booking_id = bookingA.id → u ∈ nu)) :=
  ⟨C5_materialization_count.1 dbA fourGuestsInp 30 10 99 dbSucc bSucc
    (by decide) (by decide) (by rfl),
   C5_materialization_count.2 dbA bookingA uTable 10 dbTable bookingA
    (Or.inl (by decide)) (by rfl)⟩

/-- C1: starting from any committed state satisfying the
`uq_reservation_atom` constraint (no two stored units share
(table_id, slot_id, booking_date) — the very states the schema makes
representable), every state reachable through committed
`create_with_validation` / `update_with_validation` calls still satisfies
the constraint, and a fortiori property P1: no two units with the same atom
key belong to two distinct active, non-CANCELED bookings. -/
theorem C1_uniqueness_invariant :
    ∀ (db0 db : DB), uqOK db0.units → Reach db0 db →
      uqOK db.units ∧ noDoubleBooking db := by
  intro db0 db h0 hr
  have huq : uqOK db.units := by
    induction hr with
    | refl => exact h0
    | create db1 db2 obj_in user_id today new_id b hre hfresh hc ih =>
        obtain ⟨-, -, -, -, -, hins, -, hdb2⟩ := create_ok_inv hc
        subst hdb2
        exact uqOK_append ih hins
    | update db1 db2 b0 p today b2 hre hb hu ih =>
        obtain ⟨-, -, -, hcase⟩ := update_ok_inv hu
        rcases hcase with ⟨-, -, hins, hdb2⟩ | ⟨-, hdb2⟩
        · subst hdb2
          exact uqOK_append (uqOK_filter ih) hins
        · subst hdb2
          exact ih
  exact ⟨huq, noDoubleBooking_of_uqOK huq⟩

/-- Witness for C1: `dbA` satisfies the constraint and, being trivially
reachable from itself, satisfies P1. -/
theorem C1_witness : uqOK dbA.units ∧ noDoubleBooking dbA :=
  C1_uniqueness_invariant dbA dbA (by simp [uqOK, dbA]) (Reach.refl dbA)

end BookingCafe

